import Mathlib

/-!
Shallow embedding of the ppt2pdf-plus watermarking scripts
(src/scripts/add_watermark.py, src/scripts/convert_with_watermark.py,
src/scripts/ppt_to_pdf.py), together with theorems settling the frozen
claims about the natural-language specification.

Modelling conventions:
* Python strings are Lean `String`; a possibly-absent Python value is
  `Option`.
* Filesystem facts that the scripts query (path existence, whether the
  rendering backend can register a given font file, the value of the
  `PPT2PDF_CJK_FONT` environment variable, and the outcome of the
  depth-2 `os.walk` directory scan in `_scan_for_cjk_font`) are fields
  of an explicit environment record `FontEnv`; the directory scan
  itself performs I/O, so only its result (the first matching font
  file, if any) appears in the model.
* The process-wide reportlab font cache `pdfmetrics.getRegisteredFontNames()`
  is explicit state: a list of registered font names threaded through
  the functions that touch it.
* Python exceptions become `Except` / `Option` results.
-/

namespace PPTPDF

/-! ## Path helpers (model of pathlib.Path.stem) -/

/-- Characters of a path after its last slash (the final path component). -/
def afterLastSlash (cs : List Char) : List Char :=
  cs.foldl (fun acc c => if c = '/' then [] else acc ++ [c]) []

/-- Drop the last dot and everything after it; if the list has no dot it
is returned unchanged. -/
def dropAfterLastDot (cs : List Char) : List Char :=
  match cs.reverse.dropWhile (fun c => c ≠ '.') with
  | [] => cs
  | _ :: restRev => restRev.reverse

/-- Model of Python `Path(p).stem`: the final component without its last
extension; a name whose only dot is leading keeps it. -/
def pathStem (p : String) : String :=
  let base := afterLastSlash p.data
  let d := dropAfterLastDot base
  if d.isEmpty then String.mk base else String.mk d

/-- Model of `str.replace(" ", "_")`. -/
def replaceSpaceByUnderscore (s : String) : String :=
  String.mk (s.data.map (fun c => if c = ' ' then '_' else c))

/-! ## CJK script detector (`_text_has_cjk`, add_watermark.py lines 51-71) -/

/-- One code point lies in one of the CJK/Kana/Hangul Unicode block
ranges tested by `_text_has_cjk`. -/
def codeIsCJK (code : Nat) : Bool :=
  decide (
    (0x4E00 ≤ code ∧ code ≤ 0x9FFF)      -- CJK Unified Ideographs
    ∨ (0x3400 ≤ code ∧ code ≤ 0x4DBF)    -- CJK Extension A
    ∨ (0x20000 ≤ code ∧ code ≤ 0x2A6DF)  -- Extension B
    ∨ (0x2A700 ≤ code ∧ code ≤ 0x2B73F)  -- Extension C
    ∨ (0x2B740 ≤ code ∧ code ≤ 0x2B81F)  -- Extension D
    ∨ (0x2B820 ≤ code ∧ code ≤ 0x2CEAF)  -- Extension E
    ∨ (0xF900 ≤ code ∧ code ≤ 0xFAFF)    -- CJK Compatibility Ideographs
    ∨ (0x2F800 ≤ code ∧ code ≤ 0x2FA1F)  -- Compatibility Supplement
    ∨ (0x3040 ≤ code ∧ code ≤ 0x309F)    -- Hiragana
    ∨ (0x30A0 ≤ code ∧ code ≤ 0x30FF)    -- Katakana
    ∨ (0x31F0 ≤ code ∧ code ≤ 0x31FF)    -- Katakana Phonetic Extensions
    ∨ (0xAC00 ≤ code ∧ code ≤ 0xD7AF))   -- Hangul Syllables

/-- Model of `_text_has_cjk(text)`: `none` models Python `None`; the
`isEmpty` guard models the falsiness test `if not text`. The `for` loop
with early `return True` is `List.any`. -/
def _text_has_cjk (text : Option String) : Bool :=
  match text with
  | none => false
  | some s => if s.data.isEmpty then false else s.data.any (fun ch => codeIsCJK ch.toNat)

/-! ## Font environment and registration -/

/-- The value of `sys.platform` as the scripts branch on it. -/
inductive Platform where
  | darwin
  | windows
  | linux
deriving DecidableEq

/-- Host facts consulted by the font-resolution code. `pathExists p`
models `Path(p).exists()`, `registerOk p` models whether
`pdfmetrics.registerFont(TTFont(name, p))` succeeds on the file `p`,
`envFontPath` models `os.environ.get("PPT2PDF_CJK_FONT")`, and
`scanResult` models the return value of `_scan_for_cjk_font` over
`_candidate_font_dirs()` (the walk itself is I/O; only the first font
file it yields, if any, matters to the resolver). -/
structure FontEnv where
  platform : Platform
  home : String
  pathExists : String → Bool
  registerOk : String → Bool
  envFontPath : Option String
  scanResult : Option String

/-- `DEFAULT_CJK_FONT` from add_watermark.py line 20. -/
def DEFAULT_CJK_FONT : String := "/Users/mac/Library/Fonts/NotoSansCJKsc-Regular.otf"

/-- Model of `_candidate_font_paths()` (lines 97-136): the default font
followed by the platform-specific list of well-known CJK font files. -/
def _candidate_font_paths (platform : Platform) (home : String) : List String :=
  [DEFAULT_CJK_FONT] ++
    (match platform with
     | .darwin =>
        ["/System/Library/Fonts/PingFang.ttc",
         "/System/Library/Fonts/STHeiti Medium.ttc",
         "/System/Library/Fonts/Supplemental/Heiti TC.ttc",
         "/Library/Fonts/NotoSansCJKsc-Regular.otf",
         "/Library/Fonts/NotoSansCJK-Regular.ttc",
         home ++ "/Library/Fonts/NotoSansCJKsc-Regular.otf"]
     | .windows =>
        ["C:/Windows/Fonts/msyh.ttc",
         "C:/Windows/Fonts/msyh.ttf",
         "C:/Windows/Fonts/simsun.ttc",
         "C:/Windows/Fonts/simhei.ttf",
         "C:/Windows/Fonts/msjh.ttc",
         "C:/Windows/Fonts/malgun.ttf"]
     | .linux =>
        ["/usr/share/fonts/opentype/noto/NotoSansCJKsc-Regular.otf",
         "/usr/share/fonts/truetype/wqy/wqy-microhei.ttc",
         "/usr/share/fonts/opentype/noto/NotoSansCJK-Regular.ttc",
         "/usr/share/fonts/truetype/noto/NotoSansCJK-Regular.ttc",
         "/usr/share/fonts/opentype/source-han-sans/SourceHanSansSC-Regular.otf",
         "/usr/share/fonts/truetype/arphic/uming.ttc"])

/-- The registered-name derived from a font path:
`f"PPT2PDFCJK_{font_path.stem}".replace(" ", "_")` (line 141). -/
def fontNameOf (fontPath : String) : String :=
  replaceSpaceByUnderscore ("PPT2PDFCJK_" ++ pathStem fontPath)

/-- Model of `_register_font` (lines 139-148). The state is the list of
names in `pdfmetrics.getRegisteredFontNames()`; the local `font_name`
value is written out as `fontNameOf fontPath`. A cache hit returns the
cached name unchanged; a failed `registerFont` call is caught and
yields `none` with the state unchanged. -/
def _register_font (env : FontEnv) (registered : List String) (fontPath : String) :
    Option String × List String :=
  if fontNameOf fontPath ∈ registered then (some (fontNameOf fontPath), registered)
  else if env.registerOk fontPath then
    (some (fontNameOf fontPath), registered ++ [fontNameOf fontPath])
  else (none, registered)

/-- The environment-variable step of `_resolve_cjk_font` (lines 187-200):
try the `PPT2PDF_CJK_FONT` path if set and existing; failures only add
warnings, modelled as `none`. -/
def tryEnvFont (env : FontEnv) (registered : List String) :
    Option String × List String :=
  match env.envFontPath with
  | none => (none, registered)
  | some p =>
      if env.pathExists p then _register_font env registered p
      else (none, registered)

/-- The candidate-list step of `_resolve_cjk_font` (lines 202-206): the
first existing and successfully registering path wins. -/
def tryCandidateList (env : FontEnv) :
    List String → List String → Option String × List String
  | [], registered => (none, registered)
  | c :: rest, registered =>
      if env.pathExists c then
        match _register_font env registered c with
        | (some n, r2) => (some n, r2)
        | (none, r2) => tryCandidateList env rest r2
      else tryCandidateList env rest registered

/-- The directory-scan step of `_resolve_cjk_font` (lines 208-212):
register the file found by `_scan_for_cjk_font`, if any. -/
def tryScan (env : FontEnv) (registered : List String) :
    Option String × List String :=
  match env.scanResult with
  | none => (none, registered)
  | some p => _register_font env registered p

/-- Errors `_resolve_cjk_font` can raise, named as in the spec:
`configError` is the "CJK font path not found" RuntimeError,
`renderError` the "Failed to load CJK font" RuntimeError, and
`fontNotFound` the "No CJK font found" RuntimeError. -/
inductive FontError where
  | configError
  | renderError
  | fontNotFound
deriving DecidableEq

/-- The discovery chain of `_resolve_cjk_font` (lines 187-230): the
code that runs when the override guard `if font_path_override:` is
falsy — environment variable, then candidate list, then directory
scan, then the `require_cjk` decision. -/
def _resolve_cjk_font_discovery (env : FontEnv) (registered : List String)
    (require_cjk : Bool) : Except FontError (Option String) × List String :=
  match tryEnvFont env registered with
  | (some n, r1) => (.ok (some n), r1)
  | (none, r1) =>
      match tryCandidateList env (_candidate_font_paths env.platform env.home) r1 with
      | (some n, r2) => (.ok (some n), r2)
      | (none, r2) =>
          match tryScan env r2 with
          | (some n, r3) => (.ok (some n), r3)
          | (none, r3) =>
              if require_cjk then (.error .fontNotFound, r3)
              else (.ok none, r3)

/-- Model of `_resolve_cjk_font(font_path_override, require_cjk)`
(lines 170-230). The guard `if font_path_override:` (line 172) is
Python truthiness: both `None` and the empty string are falsy, so an
empty-string override skips the explicit-path branch and falls through
to the discovery chain. Returns `Except.ok (some name)` for a resolved
font, `Except.ok none` for the final `return None`, `Except.error` for
a raise; the second component is the updated registration cache. -/
def _resolve_cjk_font (env : FontEnv) (registered : List String)
    (font_path_override : Option String) (require_cjk : Bool) :
    Except FontError (Option String) × List String :=
  match font_path_override with
  | some fp =>
      if fp.data.isEmpty then _resolve_cjk_font_discovery env registered require_cjk
      else if env.pathExists fp then
        match _register_font env registered fp with
        | (some n, r2) => (.ok (some n), r2)
        | (none, r2) => (.error .renderError, r2)
      else (.error .configError, registered)
  | none => _resolve_cjk_font_discovery env registered require_cjk

/-- Model of `_font_for_text(text, font_path_override)` (lines 233-239):
`cjk_font or "Helvetica"`. -/
def _font_for_text (env : FontEnv) (registered : List String)
    (text : Option String) (font_path_override : Option String) :
    Except FontError String × List String :=
  match _resolve_cjk_font env registered font_path_override (_text_has_cjk text) with
  | (.ok (some n), r) => (.ok n, r)
  | (.ok none, r) => (.ok "Helvetica", r)
  | (.error e, r) => (.error e, r)

/-! ## Tile spacing (`_clamp` and `create_tiled_watermark`, lines 242-306) -/

/-- Model of `_clamp(value, min_value, max_value)` (lines 242-243):
`max(min_value, min(max_value, int(value)))`; the arguments reaching it
are already integers, so `int(value)` is the identity here. -/
def _clamp (value min_value max_value : Int) : Int :=
  max min_value (min max_value value)

/-- `_DEFAULT_TILE_SPACING_X_MULT` (line 43). -/
def _DEFAULT_TILE_SPACING_X_MULT : Int := 6

/-- `_DEFAULT_TILE_SPACING_Y_MULT` (line 44). -/
def _DEFAULT_TILE_SPACING_Y_MULT : Int := 3

/-- `_DEFAULT_TILE_SPACING_X_MIN` (line 45). -/
def _DEFAULT_TILE_SPACING_X_MIN : Int := 180

/-- `_DEFAULT_TILE_SPACING_Y_MIN` (line 46). -/
def _DEFAULT_TILE_SPACING_Y_MIN : Int := 120

/-- `_DEFAULT_TILE_SPACING_X_MAX` (line 47). -/
def _DEFAULT_TILE_SPACING_X_MAX : Int := 600

/-- `_DEFAULT_TILE_SPACING_Y_MAX` (line 48). -/
def _DEFAULT_TILE_SPACING_Y_MAX : Int := 400

/-- Horizontal spacing used by `create_tiled_watermark` (lines 295-300):
the caller value if supplied, otherwise the clamped default. -/
def tiled_spacing_x (font_size : Int) : Option Int → Int
  | some sx => sx
  | none =>
      _clamp (font_size * _DEFAULT_TILE_SPACING_X_MULT)
        _DEFAULT_TILE_SPACING_X_MIN _DEFAULT_TILE_SPACING_X_MAX

/-- Vertical spacing used by `create_tiled_watermark` (lines 301-306). -/
def tiled_spacing_y (font_size : Int) : Option Int → Int
  | some sy => sy
  | none =>
      _clamp (font_size * _DEFAULT_TILE_SPACING_Y_MULT)
        _DEFAULT_TILE_SPACING_Y_MIN _DEFAULT_TILE_SPACING_Y_MAX

/-! ## Tiled drawing grid (`create_tiled_watermark`, lines 308-318) -/

/-- Model of Python `range(0, stop, step)` for `step > 0`: the
multiples of `step` below `stop`, in increasing order. -/
def pyRange (stop step : Nat) : List Nat :=
  List.range' 0 ((stop + step - 1) / step) step

/-- Model of Python `int()` applied to a float page dimension: the
float value is carried as its exact rational and truncated toward
zero (`Int.tdiv` is truncating division, as `int()` is). -/
def pyInt (q : ℚ) : Int :=
  q.num.tdiv q.den

/-- One text draw emitted by the tiling loops: the canvas is translated
to `(x, y)` and then rotated, so the instance at `(x, y)` is rotated
about `(rotateAboutX, rotateAboutY) = (x, y)` — its own grid point, not
the page center — before `drawCentredString(0, 0, text)`. -/
structure TileDraw where
  x : Nat
  y : Nat
  rotateAboutX : Nat
  rotateAboutY : Nat
deriving DecidableEq

/-- Model of the nested tiling loops of `create_tiled_watermark`
(lines 310-316): `for y in range(0, int(height), spacing_y)` outside,
`for x in range(0, int(width), spacing_x)` inside; each iteration
translates to `(x, y)`, rotates there, and draws the text. The page
size is a pair of floats (convert_with_watermark.py passes the
mediabox floats straight through), modelled as exact rationals, and
`range` sees them truncated by `int()`. -/
def tiled_watermark_draws (width height : ℚ) (spacing_x spacing_y : Nat) : List TileDraw :=
  (pyRange (pyInt height).toNat spacing_y).flatMap (fun y =>
    (pyRange (pyInt width).toNat spacing_x).map (fun x =>
      { x := x, y := y, rotateAboutX := x, rotateAboutY := y }))

/-! ## Page compositor (`add_watermark_to_pdf`, lines 330-343) -/

/-- A PDF page, abstracted as its stack of content streams (what
`PyPDF2`'s `merge_page` appends to). -/
structure PdfPage where
  contents : List Nat
deriving DecidableEq

/-- Model of `page.merge_page(watermark_page)`: the watermark page's
content is overlaid on top of the source page's content. -/
def PdfPage.merge_page (p wm : PdfPage) : PdfPage :=
  ⟨p.contents ++ wm.contents⟩

/-- Model of `add_watermark_to_pdf(input_pdf, watermark_pdf, output_pdf)`
(lines 330-343). A document is its list of pages; reading a document's
path is modelled by passing those pages. `watermark_reader.pages[0]`
raises `IndexError` on an empty watermark document, modelled as `none`;
otherwise the loop merges the first watermark page onto every source
page in order and the writer receives them in that same order. -/
def add_watermark_to_pdf (input_pdf watermark_pdf : List PdfPage) :
    Option (List PdfPage) :=
  match watermark_pdf with
  | [] => none
  | watermark_page :: _ =>
      some (input_pdf.map (fun page => page.merge_page watermark_page))

/-! ## CLI argument surfaces (the three `main` argument parsers) -/

/-- Argument names accepted by add_watermark.py's entry point
(lines 346-357): the positional `input_pdf` and the option strings. -/
def add_watermark_cli_args : List String :=
  ["input_pdf", "--output", "--text", "--image", "--opacity",
   "--rotation", "--font-size", "--font-path", "--tiled",
   "--spacing-x", "--spacing-y"]

/-- Argument names accepted by ppt_to_pdf.py's entry point
(lines 55-57): the positional `input_file` and `--output-dir`. -/
def ppt_to_pdf_cli_args : List String :=
  ["input_file", "--output-dir"]

/-- Argument names accepted by convert_with_watermark.py's entry point
(lines 18-28): the positional `input_file` and the option strings. -/
def convert_with_watermark_cli_args : List String :=
  ["input_file", "--output", "--text", "--image", "--opacity",
   "--rotation", "--font-size", "--tiled", "--spacing-x", "--spacing-y"]

/-! ## Watermark-kind selection (`main` of both watermark scripts) -/

/-- Python truthiness of an optional string argument: `None` and the
empty string are falsy. -/
def truthy : Option String → Bool
  | none => false
  | some s => !s.data.isEmpty

/-- What a watermark entry point does with the `--text`/`--image`
combination. -/
inductive WatermarkChoice where
  | usageError
  | textWatermark
  | imageWatermark
deriving DecidableEq

/-- Model of add_watermark.py `main` (lines 361-389): the usage check
`if not args.text and not args.image` followed by `if args.text: ...
else: create_image_watermark(...)`. -/
def choose_watermark_aw (text image : Option String) : WatermarkChoice :=
  if !truthy text && !truthy image then .usageError
  else if truthy text then .textWatermark
  else .imageWatermark

/-- Model of convert_with_watermark.py `main` (lines 32-79): the
identical usage check and text/image branch. -/
def choose_watermark_cw (text image : Option String) : WatermarkChoice :=
  if !truthy text && !truthy image then .usageError
  else if truthy text then .textWatermark
  else .imageWatermark

/-! ## Filesystem effects of add_watermark.py `main` (lines 365-401) -/

/-- Host facts for one invocation of the watermark entry point: the
font environment with its registration cache, and whether the
composition step `add_watermark_to_pdf` succeeds (it raises when the
input document cannot be read or the output cannot be written). -/
structure RunEnv where
  fontEnv : FontEnv
  registered : List String
  compositionOk : Bool

/-- Filesystem effect of `create_text_watermark` (lines 245-272) at
path `outPath`: the reportlab canvas writes its file only in
`c.save()`, and `_font_for_text` runs before any drawing, so a font
resolution error propagates with no file created; on success exactly
the one file appears. The filesystem is the list of paths present. -/
def create_text_watermark_fs (e : RunEnv) (text font_path : Option String)
    (outPath : String) (fs : List String) : Option (List String) :=
  match (_font_for_text e.fontEnv e.registered text font_path).1 with
  | .error _ => none
  | .ok _ => some (outPath :: fs)

/-- Model of the `try` block of add_watermark.py `main` for a text
watermark (lines 365-401): create the temporary watermark at `temp`
(`Path(args.input_pdf).parent / "temp_watermark.pdf"`), composite it
onto the input, then `temp_watermark.unlink()`; any exception jumps to
the `except` handler, which only prints and exits 1, leaving the
filesystem as the failing step left it. Returns `(succeeded, files)`. -/
def watermark_main_fs (e : RunEnv) (text font_path : Option String)
    (temp outPath : String) (fs : List String) : Bool × List String :=
  match create_text_watermark_fs e text font_path temp fs with
  | none => (false, fs)
  | some fs1 =>
      if e.compositionOk then
        (true, (outPath :: fs1).filter (fun p => p ≠ temp))
      else (false, fs1)

/-! ## Helper lemmas -/

/-- Failed registration leaves the font cache unchanged. -/
lemma register_font_none_state (env : FontEnv) (r : List String) (p : String)
    (h : (_register_font env r p).1 = none) : (_register_font env r p).2 = r := by
  unfold _register_font at h ⊢
  by_cases h1 : fontNameOf p ∈ r
  · rw [if_pos h1] at h
    simp at h
  · rw [if_neg h1] at h ⊢
    by_cases h2 : env.registerOk p = true
    · rw [if_pos h2] at h
      simp at h
    · rw [if_neg h2]

/-- A successful registration returns the name derived from the path. -/
lemma register_font_some_name (env : FontEnv) (r : List String) (p : String)
    (n : String) (h : (_register_font env r p).1 = some n) : n = fontNameOf p := by
  unfold _register_font at h
  by_cases h1 : fontNameOf p ∈ r
  · rw [if_pos h1] at h
    simpa using h.symm
  · rw [if_neg h1] at h
    by_cases h2 : env.registerOk p = true
    · rw [if_pos h2] at h
      simpa using h.symm
    · rw [if_neg h2] at h
      simp at h

/-- A failed environment-variable step leaves the font cache unchanged. -/
lemma tryEnvFont_none_state (env : FontEnv) (r : List String)
    (h : (tryEnvFont env r).1 = none) : (tryEnvFont env r).2 = r := by
  unfold tryEnvFont at h ⊢
  rcases henv : env.envFontPath with _ | p
  · simp only [henv]
  · simp only [henv] at h ⊢
    by_cases hex : env.pathExists p = true
    · rw [if_pos hex] at h ⊢
      exact register_font_none_state env r p h
    · rw [if_neg hex]

/-- A failed candidate-list pass leaves the font cache unchanged. -/
lemma tryCandidateList_none_state (env : FontEnv) :
    ∀ (cs : List String) (r : List String),
      (tryCandidateList env cs r).1 = none → (tryCandidateList env cs r).2 = r := by
  intro cs
  induction cs with
  | nil => intro r _; rfl
  | cons c rest ih =>
      intro r h
      unfold tryCandidateList at h ⊢
      by_cases hex : env.pathExists c = true
      · rw [if_pos hex] at h ⊢
        rcases hreg : _register_font env r c with ⟨o, r2⟩
        simp only [hreg] at h ⊢
        cases o with
        | some n => simp at h
        | none =>
            have hr2 : r2 = r := by
              have h0 := register_font_none_state env r c (by rw [hreg])
              rw [hreg] at h0
              exact h0
            subst hr2
            exact ih _ h
      · rw [if_neg hex] at h ⊢
        exact ih r h

/-- A failed scan step leaves the font cache unchanged. -/
lemma tryScan_none_state (env : FontEnv) (r : List String)
    (h : (tryScan env r).1 = none) : (tryScan env r).2 = r := by
  unfold tryScan at h ⊢
  rcases hs : env.scanResult with _ | p
  · simp only [hs]
  · simp only [hs] at h ⊢
    exact register_font_none_state env r p h

/-! ## Claim theorems -/

/-- C4: in tiled mode, when the caller supplies no spacing, the
defaults are `spacing_x = clamp(font_size * 6, 180, 600)` and
`spacing_y = clamp(font_size * 3, 120, 400)`; in particular
`font_size = 40` yields spacing `(240, 120)` and `font_size = 200`
yields spacing `(600, 400)`. -/
theorem c4_tiled_default_spacing :
    (∀ font_size : Int,
      tiled_spacing_x font_size none = _clamp (font_size * 6) 180 600 ∧
      tiled_spacing_y font_size none = _clamp (font_size * 3) 120 400 ∧
      _clamp (font_size * 6) 180 600 = max 180 (min 600 (font_size * 6)) ∧
      _clamp (font_size * 3) 120 400 = max 120 (min 400 (font_size * 3))) ∧
    tiled_spacing_x 40 none = 240 ∧ tiled_spacing_y 40 none = 120 ∧
    tiled_spacing_x 200 none = 600 ∧ tiled_spacing_y 200 none = 400 := by
  refine ⟨fun fs => ⟨rfl, rfl, rfl, rfl⟩, by decide, by decide, by decide, by decide⟩

/-- C6: `_text_has_cjk` returns true iff some code point of the string
lies in one of the listed CJK/Kana/Hangul Unicode block ranges; `None`
and the empty string give false, and every all-ASCII string gives
false. -/
theorem c6_text_has_cjk_ranges :
    (∀ s : String,
      _text_has_cjk (some s) = true ↔ ∃ c ∈ s.data, codeIsCJK c.toNat = true) ∧
    _text_has_cjk none = false ∧
    _text_has_cjk (some "") = false ∧
    (∀ s : String, (∀ c ∈ s.data, c.toNat ≤ 0x7F) →
      _text_has_cjk (some s) = false) := by
  have hiff : ∀ s : String,
      _text_has_cjk (some s) = true ↔ ∃ c ∈ s.data, codeIsCJK c.toNat = true := by
    intro s
    unfold _text_has_cjk
    by_cases h : s.data.isEmpty
    · have hnil : s.data = [] := by simpa [List.isEmpty_iff] using h
      simp [h, hnil]
    · simp [h, List.any_eq_true]
  refine ⟨hiff, rfl, rfl, ?_⟩
  intro s hascii
  by_contra hcontra
  have htrue : _text_has_cjk (some s) = true := by
    cases hval : _text_has_cjk (some s)
    · exact absurd hval hcontra
    · rfl
  obtain ⟨c, hc, hcjk⟩ := (hiff s).1 htrue
  have hle := hascii c hc
  have : ¬ (codeIsCJK c.toNat = true) := by
    simp only [codeIsCJK, decide_eq_true_eq]
    omega
  exact this hcjk

/-- Witness for C6 at concrete inputs: an all-ASCII string is rejected
by the detector and a string with a CJK Unified Ideograph is
accepted. -/
theorem c6_witness :
    _text_has_cjk (some "Draft") = false ∧ _text_has_cjk (some "機密") = true := by
  constructor
  · exact c6_text_has_cjk_ranges.2.2.2 "Draft" (by decide)
  · exact (c6_text_has_cjk_ranges.1 "機密").2 ⟨'機', by decide, by decide⟩

/-- C8: registering a font whose derived name is already in the
process-wide cache is a no-op returning the cached handle, and
registering the same font file twice in one process yields the same
handle both times. -/
theorem c8_register_font_idempotent :
    ∀ (env : FontEnv) (registered : List String) (fontPath n : String)
      (r2 : List String),
      (fontNameOf fontPath ∈ registered →
        _register_font env registered fontPath =
          (some (fontNameOf fontPath), registered)) ∧
      (_register_font env registered fontPath = (some n, r2) →
        _register_font env r2 fontPath = (some n, r2)) := by
  intro env registered fontPath n r2
  constructor
  · intro hmem
    simp [_register_font, hmem]
  · intro h
    have hn : n = fontNameOf fontPath := by
      apply register_font_some_name env registered fontPath
      rw [h]
    subst hn
    unfold _register_font at h ⊢
    by_cases hmem : fontNameOf fontPath ∈ registered
    · rw [if_pos hmem] at h
      have hr2 : r2 = registered := by
        have h2 := congrArg Prod.snd h
        simpa using h2.symm
      subst hr2
      rw [if_pos hmem]
    · rw [if_neg hmem] at h
      by_cases hok : env.registerOk fontPath = true
      · rw [if_pos hok] at h
        have hr2 : r2 = registered ++ [fontNameOf fontPath] := by
          have h2 := congrArg Prod.snd h
          simpa using h2.symm
        subst hr2
        have hmem2 : fontNameOf fontPath ∈ registered ++ [fontNameOf fontPath] :=
          List.mem_append_right _ (List.mem_singleton.2 rfl)
        rw [if_pos hmem2]
      · rw [if_neg hok] at h
        simp at h

/-- Witness for C8 at a concrete cache state: a cache hit returns the
cached name with the cache unchanged. -/
theorem c8_witness :
    _register_font ⟨.linux, "/root", fun _ => true, fun _ => true, none, none⟩
      ["PPT2PDFCJK_f"] "/tmp/f.ttf" =
      (some (fontNameOf "/tmp/f.ttf"), ["PPT2PDFCJK_f"]) := by
  exact (c8_register_font_idempotent
    ⟨.linux, "/root", fun _ => true, fun _ => true, none, none⟩
    ["PPT2PDFCJK_f"] "/tmp/f.ttf" "" []).1 (by decide)

/-- C9 counterexample: the watermark entry point accepts `--font-path`
but the convert-and-watermark entry point does not, so the latter does
not accept the union of the other two argument sets. -/
theorem c9_counterexample :
    "--font-path" ∈ add_watermark_cli_args ∧
    "--font-path" ∉ convert_with_watermark_cli_args := by decide

/-- C9 (amended): the convert-and-watermark entry point accepts the
watermark entry point's argument set without `--font-path` (with
positional `input_file` instead of `input_pdf`), and also omits the
convert entry point's `--output-dir`. -/
theorem c9_arg_surface :
    convert_with_watermark_cli_args =
      (add_watermark_cli_args.map
        (fun a => if a = "input_pdf" then "input_file" else a)).filter
        (fun a => a ≠ "--font-path") ∧
    "--output-dir" ∈ ppt_to_pdf_cli_args ∧
    "--output-dir" ∉ convert_with_watermark_cli_args := by decide

/-- C10 counterexample: with `--text ""` and `--image logo.png` both
supplied, no usage error is raised but the image watermark is used, not
the text watermark. -/
theorem c10_counterexample :
    choose_watermark_aw (some "") (some "logo.png") = .imageWatermark ∧
    choose_watermark_aw (some "") (some "logo.png") ≠ .textWatermark := by decide

/-- C10 (amended): in both watermark entry points, the only
argument-combination usage error is when `--text` and `--image` are
both falsy (absent or empty); when a non-empty `--text` is supplied the
text watermark is used and `--image` is silently ignored; when `--text`
is falsy and `--image` is truthy the image watermark is used. -/
theorem c10_watermark_choice :
    ∀ text image : Option String,
      (choose_watermark_aw text image = .usageError ↔
        truthy text = false ∧ truthy image = false) ∧
      (truthy text = true → choose_watermark_aw text image = .textWatermark) ∧
      (truthy text = false → truthy image = true →
        choose_watermark_aw text image = .imageWatermark) ∧
      choose_watermark_cw text image = choose_watermark_aw text image := by
  intro t i
  unfold choose_watermark_aw choose_watermark_cw
  cases ht : truthy t <;> cases hi : truthy i <;> simp

/-- Witness for C10 at concrete arguments: a non-empty text plus an
image yields the text watermark. -/
theorem c10_witness :
    choose_watermark_aw (some "CONFIDENTIAL") (some "logo.png") = .textWatermark := by
  exact (c10_watermark_choice (some "CONFIDENTIAL") (some "logo.png")).2.1 (by decide)

/-- C1: for every source PDF with at least one page and every watermark
PDF with at least one page, `add_watermark_to_pdf` produces an output
with exactly as many pages as the source, in the same order, each being
the corresponding source page merged with the first watermark page. -/
theorem c1_add_watermark_pages :
    ∀ (input_pdf watermark_pdf : List PdfPage),
      1 ≤ input_pdf.length → 1 ≤ watermark_pdf.length →
      ∃ out, add_watermark_to_pdf input_pdf watermark_pdf = some out ∧
        out.length = input_pdf.length ∧
        ∀ (i : Nat) (ho : i < out.length) (hi : i < input_pdf.length)
          (hw : 0 < watermark_pdf.length),
          out.get ⟨i, ho⟩ =
            (input_pdf.get ⟨i, hi⟩).merge_page (watermark_pdf.get ⟨0, hw⟩) := by
  intro input wm h1 h2
  match wm with
  | [] => simp at h2
  | w0 :: rest =>
      refine ⟨input.map (fun p => p.merge_page w0), ?_, ?_, ?_⟩
      · rfl
      · simp
      · intro i ho hi hw
        simp [List.get_eq_getElem, List.getElem_map]

/-- Witness for C1 at a concrete two-page document and one-page
watermark. -/
theorem c1_witness :
    ∃ out, add_watermark_to_pdf [⟨[1]⟩, ⟨[2]⟩] [⟨[9]⟩] = some out ∧
      out.length = ([⟨[1]⟩, ⟨[2]⟩] : List PdfPage).length ∧
      ∀ (i : Nat) (ho : i < out.length)
        (hi : i < ([⟨[1]⟩, ⟨[2]⟩] : List PdfPage).length)
        (hw : 0 < ([⟨[9]⟩] : List PdfPage).length),
        out.get ⟨i, ho⟩ =
          (([⟨[1]⟩, ⟨[2]⟩] : List PdfPage).get ⟨i, hi⟩).merge_page
            (([⟨[9]⟩] : List PdfPage).get ⟨0, hw⟩) := by
  exact c1_add_watermark_pages [⟨[1]⟩, ⟨[2]⟩] [⟨[9]⟩] (by decide) (by decide)

/-- Members of `pyRange stop step` for positive `step` are exactly the
multiples of `step` below `stop`. -/
lemma mem_pyRange {stop step x : Nat} (hs : 0 < step) :
    x ∈ pyRange stop step ↔ (∃ i, x = i * step) ∧ x < stop := by
  unfold pyRange
  rw [List.mem_range']
  constructor
  · rintro ⟨i, hi, rfl⟩
    have h2 : (i + 1) * step ≤ stop + step - 1 := (Nat.le_div_iff_mul_le hs).1 hi
    have h3 : i * step + step ≤ stop + step - 1 := by
      rw [Nat.succ_mul] at h2
      exact h2
    refine ⟨⟨i, by ring⟩, ?_⟩
    have hx : 0 + step * i = i * step := by ring
    rw [hx]
    generalize i * step = a at h3 ⊢
    omega
  · rintro ⟨⟨i, rfl⟩, hlt⟩
    refine ⟨i, ?_, by ring⟩
    have h4 : (i + 1) * step ≤ stop + step - 1 := by
      rw [Nat.succ_mul]
      generalize hg : i * step = a at hlt ⊢
      omega
    exact (Nat.le_div_iff_mul_le hs).2 h4

/-- C5 counterexample: at the fractional page width 1191/2 = 595.5
with horizontal spacing 119, the point (595, 0) lies on the grid the
claim describes — 595 = 5 * 119 is a spacing multiple below the page
width — but `range(0, int(595.5), 119)` stops at 476, so the code
never draws there: the drawn set is not the claimed `[0, page.width)`
grid. -/
theorem c5_counterexample :
    (⟨1191, 2, by decide, by decide⟩ : ℚ) = 1191 / 2 ∧
    (595 : Nat) = 5 * 119 ∧
    ((595 : Nat) : ℚ) < (⟨1191, 2, by decide, by decide⟩ : ℚ) ∧
    ((0 : Nat) : ℚ) < (⟨9, 1, by decide, by decide⟩ : ℚ) ∧
    ¬ (∃ d ∈ tiled_watermark_draws (⟨1191, 2, by decide, by decide⟩ : ℚ)
        (⟨9, 1, by decide, by decide⟩ : ℚ) 119 4,
        (d.x, d.y) = ((595, 0) : Nat × Nat)) := by
  refine ⟨?_, by decide, by decide, by decide, by decide⟩
  rw [Rat.mk'_eq_divInt, Rat.divInt_eq_div]
  norm_num

/-- C5 (amended): in tiled mode with positive spacings, the set of
positions at which the text is drawn is exactly the grid of points
with coordinates that are multiples of the spacings inside
`[0, int(page.width)) × [0, int(page.height))` — the float page
dimensions truncated by `range(0, int(...), spacing)` — and every
instance is rotated about its own grid point. -/
theorem c5_tiled_grid :
    ∀ (width height : ℚ) (spacing_x spacing_y : Nat),
      0 < spacing_x → 0 < spacing_y →
      (∀ p : Nat × Nat,
        (∃ d ∈ tiled_watermark_draws width height spacing_x spacing_y,
          (d.x, d.y) = p) ↔
        ((∃ i, p.1 = i * spacing_x) ∧ p.1 < (pyInt width).toNat ∧
         (∃ j, p.2 = j * spacing_y) ∧ p.2 < (pyInt height).toNat)) ∧
      (∀ d ∈ tiled_watermark_draws width height spacing_x spacing_y,
        d.rotateAboutX = d.x ∧ d.rotateAboutY = d.y) := by
  intro w h sx sy hsx hsy
  constructor
  · intro p
    constructor
    · rintro ⟨d, hd, rfl⟩
      rw [tiled_watermark_draws, List.mem_flatMap] at hd
      obtain ⟨y, hy, hd2⟩ := hd
      rw [List.mem_map] at hd2
      obtain ⟨x, hx, rfl⟩ := hd2
      rw [mem_pyRange hsy] at hy
      rw [mem_pyRange hsx] at hx
      exact ⟨hx.1, hx.2, hy.1, hy.2⟩
    · rintro ⟨⟨i, hx⟩, hxw, ⟨j, hy⟩, hyh⟩
      refine ⟨⟨p.1, p.2, p.1, p.2⟩, ?_, rfl⟩
      rw [tiled_watermark_draws, List.mem_flatMap]
      refine ⟨p.2, ?_, ?_⟩
      · rw [mem_pyRange hsy]
        exact ⟨⟨j, hy⟩, hyh⟩
      · rw [List.mem_map]
        refine ⟨p.1, ?_, rfl⟩
        rw [mem_pyRange hsx]
        exact ⟨⟨i, hx⟩, hxw⟩
  · intro d hd
    rw [tiled_watermark_draws, List.mem_flatMap] at hd
    obtain ⟨y, _, hd2⟩ := hd
    rw [List.mem_map] at hd2
    obtain ⟨x, _, rfl⟩ := hd2
    exact ⟨rfl, rfl⟩

/-- Witness for C5 on a concrete page: with width 7, height 9 and
spacings 3 and 4, the grid point (6, 8) is drawn. -/
theorem c5_witness :
    ∃ d ∈ tiled_watermark_draws (⟨7, 1, by decide, by decide⟩ : ℚ)
      (⟨9, 1, by decide, by decide⟩ : ℚ) 3 4, (d.x, d.y) = ((6, 8) : Nat × Nat) := by
  exact ((c5_tiled_grid (⟨7, 1, by decide, by decide⟩ : ℚ)
    (⟨9, 1, by decide, by decide⟩ : ℚ) 3 4 (by decide) (by decide)).1 (6, 8)).2
    ⟨⟨2, rfl⟩, by decide, ⟨2, rfl⟩, by decide⟩

/-- Big-step characterization of `_resolve_cjk_font` with no explicit
override: the three discovery steps are tried in order, a failing step
leaves the cache unchanged, and only when all three fail does the
`require_cjk` flag decide between raising and returning the fallback. -/
lemma resolve_none_spec (env : FontEnv) (r : List String) (rq : Bool) :
    _resolve_cjk_font env r none rq =
      (match tryEnvFont env r with
       | (some n, r1) => (Except.ok (some n), r1)
       | (none, _) =>
         match tryCandidateList env (_candidate_font_paths env.platform env.home) r with
         | (some n, r2) => (Except.ok (some n), r2)
         | (none, _) =>
           match tryScan env r with
           | (some n, r3) => (Except.ok (some n), r3)
           | (none, _) =>
             if rq then (Except.error FontError.fontNotFound, r)
             else (Except.ok none, r)) := by
  simp only [_resolve_cjk_font, _resolve_cjk_font_discovery]
  rcases hEnv : tryEnvFont env r with ⟨o1, r1⟩
  cases o1 with
  | some n => rfl
  | none =>
      have hr1 : r1 = r := by
        have h0 := tryEnvFont_none_state env r (by rw [hEnv])
        rw [hEnv] at h0
        exact h0
      subst hr1
      dsimp only
      rcases hCand : tryCandidateList env (_candidate_font_paths env.platform env.home) r1
        with ⟨o2, r2⟩
      cases o2 with
      | some n => rfl
      | none =>
          have hr2 : r2 = r1 := by
            have h0 := tryCandidateList_none_state env
              (_candidate_font_paths env.platform env.home) r1 (by rw [hCand])
            rw [hCand] at h0
            exact h0
          subst hr2
          dsimp only
          rcases hScan : tryScan env r2 with ⟨o3, r3⟩
          cases o3 with
          | some n => rfl
          | none =>
              have hr3 : r3 = r2 := by
                have h0 := tryScan_none_state env r2 (by rw [hScan])
                rw [hScan] at h0
                exact h0
              subst hr3
              rfl

/-- C2: with no explicit font path, font resolution raises
FontNotFoundError exactly when the text contains a CJK code point (per
the detector) and neither the environment-variable path, nor any
built-in candidate path, nor the directory scan yields a registrable
font; for text without CJK code points it never raises, and when
nothing is discoverable it falls back to the default Helvetica face. -/
theorem c2_font_resolution_raises :
    ∀ (env : FontEnv) (registered : List String) (text : Option String),
      ((∃ e, (_font_for_text env registered text none).1 = .error e) ↔
        (_text_has_cjk text = true ∧
         (tryEnvFont env registered).1 = none ∧
         (tryCandidateList env (_candidate_font_paths env.platform env.home)
           registered).1 = none ∧
         (tryScan env registered).1 = none)) ∧
      (∀ e, (_font_for_text env registered text none).1 = .error e →
        e = .fontNotFound) ∧
      (_text_has_cjk text = false →
        (∃ n, (_font_for_text env registered text none).1 = .ok n) ∧
        ((tryEnvFont env registered).1 = none →
         (tryCandidateList env (_candidate_font_paths env.platform env.home)
           registered).1 = none →
         (tryScan env registered).1 = none →
         (_font_for_text env registered text none).1 = .ok "Helvetica")) := by
  intro env r text
  have hspec := resolve_none_spec env r (_text_has_cjk text)
  simp only [_font_for_text]
  rw [hspec]
  rcases hEnv : tryEnvFont env r with ⟨o1, r1⟩
  cases o1 with
  | some n => simp
  | none =>
      dsimp only
      rcases hCand : tryCandidateList env (_candidate_font_paths env.platform env.home) r
        with ⟨o2, r2⟩
      cases o2 with
      | some n => simp
      | none =>
          dsimp only
          rcases hScan : tryScan env r with ⟨o3, r3⟩
          cases o3 with
          | some n => simp
          | none =>
              cases htext : _text_has_cjk text with
              | true => simp [htext]
              | false => simp [htext]

/-- Witness for C2 at a concrete host with no discoverable font: CJK
text makes resolution raise. -/
theorem c2_witness :
    _text_has_cjk (some "機密") = true ∧
    (∃ e, (_font_for_text ⟨.linux, "/home/u", fun _ => false, fun _ => false, none, none⟩
      [] (some "機密") none).1 = .error e) := by
  refine ⟨by decide, ?_⟩
  exact ((c2_font_resolution_raises
    ⟨.linux, "/home/u", fun _ => false, fun _ => false, none, none⟩
    [] (some "機密")).1).2 ⟨by decide, by decide, by decide, by decide⟩

/-- C3 counterexample: the empty explicit font path is falsy in
Python, so `--font-path ""` is ignored by the guard
`if font_path_override:` — on a host where the path "" does not exist
and no font is discoverable, the claim predicts ConfigurationError but
the code raises nothing and returns the Helvetica fallback. -/
theorem c3_counterexample :
    (⟨.linux, "/home/u", fun _ => false, fun _ => false, none, none⟩ : FontEnv).pathExists
      "" = false ∧
    (_font_for_text ⟨.linux, "/home/u", fun _ => false, fun _ => false, none, none⟩
      [] (some "hello") (some "")).1 = .ok "Helvetica" ∧
    (_font_for_text ⟨.linux, "/home/u", fun _ => false, fun _ => false, none, none⟩
      [] (some "hello") (some "")).1 ≠ .error .configError := by
  have heval : (_font_for_text
      ⟨.linux, "/home/u", fun _ => false, fun _ => false, none, none⟩
      [] (some "hello") (some "")).1 = .ok "Helvetica" := rfl
  refine ⟨rfl, heval, ?_⟩
  rw [heval]
  intro hcontra
  exact Except.noConfusion hcontra

/-- C3 (amended): for every text and every non-empty explicit font
path, resolution returns the handle derived from that path whenever
the path exists and registers, regardless of the text; a missing path
raises the configuration error; an existing path that fails to
register raises the render error; and the environment variable,
candidate list and scan are never consulted. The empty explicit path
is falsy and is treated exactly as an absent override. -/
theorem c3_explicit_font_path :
    ∀ (env : FontEnv) (registered : List String) (text : Option String) (fp : String),
      (fp.data.isEmpty = false →
        (env.pathExists fp = true →
          (∀ (n : String) (r2 : List String),
            _register_font env registered fp = (some n, r2) →
            (_font_for_text env registered text (some fp)).1 = .ok n ∧
              n = fontNameOf fp) ∧
          ((_register_font env registered fp).1 = none →
            (_font_for_text env registered text (some fp)).1 = .error .renderError)) ∧
        (env.pathExists fp = false →
          (_font_for_text env registered text (some fp)).1 = .error .configError) ∧
        (∀ env2 : FontEnv, env2.pathExists = env.pathExists →
          env2.registerOk = env.registerOk → ∀ rq : Bool,
          _resolve_cjk_font env2 registered (some fp) rq =
            _resolve_cjk_font env registered (some fp) rq)) ∧
      (∀ rq : Bool,
        _resolve_cjk_font env registered (some "") rq =
          _resolve_cjk_font env registered none rq) := by
  intro env r text fp
  constructor
  · intro hne
    refine ⟨?_, ?_, ?_⟩
    · intro hex
      constructor
      · intro n r2 hreg
        have hn : n = fontNameOf fp := register_font_some_name env r fp n (by rw [hreg])
        refine ⟨?_, hn⟩
        simp only [_font_for_text, _resolve_cjk_font]
        rw [if_neg (by simp [hne]), if_pos hex, hreg]
      · intro hnone
        simp only [_font_for_text, _resolve_cjk_font]
        rw [if_neg (by simp [hne]), if_pos hex]
        rcases hreg : _register_font env r fp with ⟨o, r2⟩
        rw [hreg] at hnone
        cases o with
        | some m => simp at hnone
        | none => rfl
    · intro hnex
      simp only [_font_for_text, _resolve_cjk_font]
      rw [if_neg (by simp [hne]), if_neg (by simp [hnex])]
    · intro env2 hpe hro rq
      simp only [_resolve_cjk_font]
      have hreg : _register_font env2 r fp = _register_font env r fp := by
        unfold _register_font
        rw [hro]
      have hne2 : ¬ (fp.data.isEmpty = true) := by simp [hne]
      rw [if_neg hne2, if_neg hne2, hpe, hreg]
  · intro rq
    rfl

/-- Witness for C3 at a concrete host where the non-empty explicit
path exists and registers: the handle derived from the path is
returned. -/
theorem c3_witness :
    (_font_for_text ⟨.linux, "/root", fun _ => true, fun _ => true, none, none⟩
      [] (some "hello") (some "/tmp/f.ttf")).1 = .ok (fontNameOf "/tmp/f.ttf") := by
  exact ((((c3_explicit_font_path
    ⟨.linux, "/root", fun _ => true, fun _ => true, none, none⟩
    [] (some "hello") "/tmp/f.ttf").1 (by decide)).1 (by decide)).1
    (fontNameOf "/tmp/f.ttf") [fontNameOf "/tmp/f.ttf"] (by decide)).1

/-- C7 counterexample: on an invocation of the watermark entry point
where the watermark is created but the composition step raises (for
example the input document cannot be read), the `except` handler skips
`temp_watermark.unlink()` and the temporary watermark file persists
after the run. -/
theorem c7_counterexample :
    (watermark_main_fs
        ⟨⟨.linux, "/root", fun _ => true, fun _ => true, none, none⟩, [], false⟩
        (some "CONFIDENTIAL") none "temp_watermark.pdf" "out.pdf" ["in.pdf"]).1 = false ∧
      "temp_watermark.pdf" ∈
        (watermark_main_fs
          ⟨⟨.linux, "/root", fun _ => true, fun _ => true, none, none⟩, [], false⟩
          (some "CONFIDENTIAL") none "temp_watermark.pdf" "out.pdf" ["in.pdf"]).2 := by
  decide

/-- C7 (amended): on successful invocations the temporary watermark
artifact is removed after use, and a failure raised before document
I/O (such as a missing explicit font path) leaves no temporary files
behind; a failure during the composition step, however, leaves the
temporary watermark file on disk. -/
theorem c7_temp_file_lifecycle :
    ∀ (e : RunEnv) (text font_path : Option String) (temp outPath : String)
      (fs : List String),
      ((watermark_main_fs e text font_path temp outPath fs).1 = true →
        temp ∉ (watermark_main_fs e text font_path temp outPath fs).2) ∧
      ((∃ err, (_font_for_text e.fontEnv e.registered text font_path).1 = .error err) →
        watermark_main_fs e text font_path temp outPath fs = (false, fs)) ∧
      ((∀ err, (_font_for_text e.fontEnv e.registered text font_path).1 ≠ .error err) →
        e.compositionOk = false →
        (watermark_main_fs e text font_path temp outPath fs).1 = false ∧
        temp ∈ (watermark_main_fs e text font_path temp outPath fs).2) := by
  intro e text fp temp out fs
  unfold watermark_main_fs create_text_watermark_fs
  rcases hfont : (_font_for_text e.fontEnv e.registered text fp).1 with err | n
  · refine ⟨by simp, fun _ => rfl, ?_⟩
    intro hne
    exact absurd rfl (hne err)
  · cases hcomp : e.compositionOk with
    | true =>
        refine ⟨?_, ?_, ?_⟩
        · intro _
          simp [List.mem_filter]
        · rintro ⟨err, herr⟩
          simp at herr
        · intro _ hfalse
          simp at hfalse
    | false =>
        refine ⟨by simp, ?_, ?_⟩
        · rintro ⟨err, herr⟩
          simp at herr
        · intro _ _
          exact ⟨rfl, List.mem_cons_self _ _⟩

/-- Witness for C7 at a concrete successful invocation: the temporary
watermark file is absent from the final filesystem. -/
theorem c7_witness :
    "temp_watermark.pdf" ∉ (watermark_main_fs
      ⟨⟨.linux, "/root", fun _ => true, fun _ => true, none, none⟩, [], true⟩
      (some "CONFIDENTIAL") none "temp_watermark.pdf" "out.pdf" ["in.pdf"]).2 := by
  exact (c7_temp_file_lifecycle
    ⟨⟨.linux, "/root", fun _ => true, fun _ => true, none, none⟩, [], true⟩
    (some "CONFIDENTIAL") none "temp_watermark.pdf" "out.pdf" ["in.pdf"]).1 (by decide)

end PPTPDF
